import Mathlib

/-!
Verification of the operator execution adapter in
`caffe2/mkl/utils/mkl_operator.h` (class `MKLOperator`).

The adapter delegates computation to an abstract `RunOnDevice()` hook and is
responsible for event signaling, error propagation, waiting on events, and a
single-primitive execution helper.  We embed the adapter shallowly:

* machine state is an explicit record (`MKLOperatorState`);
* the engine-owned event referenced by the operator is `Option (List Signal)`:
  `none` means no event is associated, `some sigs` is the (ordered) list of
  terminal signals that have been recorded on the event so far;
* calls made to the device context are logged in `ctxCalls`;
* the outcome of the abstract `RunOnDevice()` hook is a parameter of `Run`
  (`RunResult`): it may return a boolean or raise a consistency violation
  (`EnforceNotMet`) carrying a message;
* fallible C++ control flow (`throw` / normal return) is `Except String`.
-/

namespace Caffe2MKL

/-- Terminal signals an event can receive: finished, or failed with a
message. -/
inductive Signal where
  | finished : Signal
  | failed : String → Signal
  deriving DecidableEq, Repr

/-- Calls the adapter makes to the device context (`MKLContext`): waiting on
an event (events are opaque engine-owned handles, modelled by ids), or
recording completion or failure on the associated event. -/
inductive ContextCall where
  | wait : Nat → ContextCall
  | record : Option String → ContextCall
  deriving DecidableEq, Repr

/-- State of one `MKLOperator` instance, from the protected fields of the
class in `mkl_operator.h` plus the `OperatorBase` data the methods use:
the debug definition (`has_debug_def()` / `debug_def()`), the associated
event (`event_`), and a log of calls made to the device context. -/
structure MKLOperatorState where
  has_debug_def : Bool
  debug_def : String
  event_ : Option (List Signal)
  primitive_ : Nat
  input_size_cache_ : List (List Int)
  buffer_ : Nat
  resources_ : List Nat
  ctxCalls : List ContextCall
  deriving DecidableEq, Repr

/-- Outcome of one invocation of the abstract `RunOnDevice()` hook: a normal
return with a boolean, or a raised consistency violation (`EnforceNotMet`)
with a message. -/
inductive RunResult where
  | ok : Bool → RunResult
  | enforceNotMet : String → RunResult
  deriving DecidableEq, Repr

/-- Modelled from the spec: `ProtoDebugString` (external, from the protobuf
layer, not part of the provided source) renders the debug definition of the
operator as text; we keep the debug definition as that text already. -/
def ProtoDebugString (s : String) : String := s

/-- Embedding of `MKLOperator::getErrorMsg`: the diagnostic message is the
debug definition text behind a fixed header when a debug definition is
available, and a fixed fallback otherwise. -/
def getErrorMsg (op : MKLOperatorState) : String :=
  if op.has_debug_def then
    "Error from operator: " ++ ProtoDebugString op.debug_def
  else
    "Error from operator: no op def"

/-- Modelled from the spec: `MKLContext::Record` (external, not part of the
provided source) records completion on the event when no message is supplied
and failure with that message otherwise. -/
def contextRecord (sigs : List Signal) (err_msg : Option String) : List Signal :=
  match err_msg with
  | none => sigs ++ [Signal.finished]
  | some m => sigs ++ [Signal.failed m]

/-- Embedding of `MKLOperator::RecordEvent`: when an event is associated, ask
the device context to record completion or failure on it; otherwise do
nothing at all (the guard `if (event_)` short-circuits before any context
call). -/
def RecordEvent (op : MKLOperatorState) (err_msg : Option String) :
    MKLOperatorState :=
  match op.event_ with
  | some sigs =>
      { op with
        event_ := some (contextRecord sigs err_msg)
        ctxCalls := op.ctxCalls ++ [ContextCall.record err_msg] }
  | none => op

/-- Modelled from the spec: `OperatorBase::event()` / `Event::SetFinished`
(external, not part of the provided source).  The spec says the success path
marks the associated event as finished; we model this as appending a finished
signal to the associated event.  This signal goes to the event directly, not
through the device context, so no context call is logged. -/
def setFinished (op : MKLOperatorState) : MKLOperatorState :=
  match op.event_ with
  | some sigs => { op with event_ := some (sigs ++ [Signal.finished]) }
  | none => op

/-- Modelled from the spec: `EnforceNotMet::AppendMessage` (external, not part
of the provided source) extends the message of the violation, preserving the
original message and appending the supplied context. -/
def appendMessage (original extra : String) : String := original ++ extra

/-- Embedding of `MKLOperator::Run`.  The stream id is accepted but unused.
The body re-routes to `RunOnDevice()` inside a try block: on `true` the event
is set finished, on `false` the event is recorded failed with the diagnostic
message, and a raised `EnforceNotMet` gets the diagnostic message appended,
is recorded on the event, and is re-raised.  The first component is the
normal return value (`Except.ok`) or the propagated violation message
(`Except.error`); the second is the resulting state. -/
def Run (op : MKLOperatorState) (rod : RunResult) (streamId : Int) :
    Except String Bool × MKLOperatorState :=
  match rod with
  | RunResult.ok true => (Except.ok true, setFinished op)
  | RunResult.ok false =>
      (Except.ok false, RecordEvent op (some (getErrorMsg op)))
  | RunResult.enforceNotMet m =>
      let m2 := appendMessage m (getErrorMsg op)
      (Except.error m2, RecordEvent op (some m2))

/-- Embedding of `MKLOperator::WaitEvent`: delegate to the wait primitive of
the device context; the stream id is unused. -/
def WaitEvent (op : MKLOperatorState) (ev : Nat) (streamId : Int) :
    MKLOperatorState :=
  { op with ctxCalls := op.ctxCalls ++ [ContextCall.wait ev] }

/-- Embedding of `MKLOperator::WaitEvents`: loop over the events in input
order, delegating each to the wait primitive of the device context; the
stream id is unused. -/
def WaitEvents (op : MKLOperatorState) (events : List Nat) (streamId : Int) :
    MKLOperatorState :=
  events.foldl (fun o ev => WaitEvent o ev streamId) op

/-- Modelled from the spec: `MKLDNN_SAFE_CALL` (external macro, not part of
the provided source) checks the status code returned by the kernel library:
zero is success, any non-zero status raises a fatal error carrying the
status. -/
def MKLDNN_SAFE_CALL (status : Int) : Except String Unit :=
  if status = 0 then Except.ok ()
  else Except.error ("MKLDNN error, status " ++ toString status)

/-- Embedding of `MKLOperator::ExecutePrimitive`: invoke the bound kernel
primitive (the external kernel call is modelled by its returned status code)
under `MKLDNN_SAFE_CALL`.  On success the state is returned unchanged; on a
failure status the fatal error propagates. -/
def ExecutePrimitive (op : MKLOperatorState) (status : Int) :
    Except String MKLOperatorState :=
  match MKLDNN_SAFE_CALL status with
  | Except.ok _ => Except.ok op
  | Except.error m => Except.error m

/-- Signals newly emitted on the associated event between two states of the
same operator (empty when no event is associated). -/
def emittedSignals (before after : MKLOperatorState) : List Signal :=
  match before.event_, after.event_ with
  | some b, some a => a.drop b.length
  | _, _ => []

/-- Concrete operator with an associated (fresh) event and a debug
definition. -/
def opWithEvent : MKLOperatorState :=
  ⟨true, "opdef", some [], 0, [], 0, [], []⟩

/-- Concrete operator with no associated event and no debug definition. -/
def opNoEvent : MKLOperatorState :=
  ⟨false, "", none, 0, [], 0, [], []⟩

/-- Helper: unfolding one step of the wait loop. -/
theorem WaitEvents_cons (op : MKLOperatorState) (e : Nat) (es : List Nat)
    (s : Int) : WaitEvents op (e :: es) s = WaitEvents (WaitEvent op e s) es s :=
  rfl

/-- Helper: the wait loop logs exactly one context wait call per event, in
input order, after the pre-existing log. -/
theorem WaitEvents_ctxCalls (op : MKLOperatorState) (events : List Nat)
    (s : Int) :
    (WaitEvents op events s).ctxCalls =
      op.ctxCalls ++ events.map ContextCall.wait := by
  induction events generalizing op with
  | nil => simp [WaitEvents]
  | cons e es ih =>
      rw [WaitEvents_cons]
      simpa [WaitEvent] using ih (WaitEvent op e s)

/-- Helper: the wait loop leaves every field of the operator except the
context log unchanged. -/
theorem WaitEvents_fields (op : MKLOperatorState) (events : List Nat)
    (s : Int) :
    (WaitEvents op events s).has_debug_def = op.has_debug_def ∧
    (WaitEvents op events s).debug_def = op.debug_def ∧
    (WaitEvents op events s).event_ = op.event_ ∧
    (WaitEvents op events s).primitive_ = op.primitive_ ∧
    (WaitEvents op events s).input_size_cache_ = op.input_size_cache_ ∧
    (WaitEvents op events s).buffer_ = op.buffer_ ∧
    (WaitEvents op events s).resources_ = op.resources_ := by
  induction events generalizing op with
  | nil => simp [WaitEvents]
  | cons e es ih =>
      rw [WaitEvents_cons]
      simpa [WaitEvent] using ih (WaitEvent op e s)

/-- Helper: the diagnostic message is never empty. -/
theorem getErrorMsg_ne_empty (op : MKLOperatorState) : getErrorMsg op ≠ "" := by
  unfold getErrorMsg
  split
  · intro h
    have h2 := congrArg String.length h
    rw [String.length_append] at h2
    have h3 : ("Error from operator: " : String).length = 21 := rfl
    have h4 : ("" : String).length = 0 := rfl
    omega
  · intro h
    exact absurd (congrArg String.length h) (by decide)

/-- Claim C1 (amended): for every operator with an associated event and every
normal outcome of `RunOnDevice`, `Run` returns normally and exactly one
terminal signal (finished or failed) is emitted on the event during the
invocation — never both, never neither. -/
theorem run_emits_exactly_one_terminal_signal (op : MKLOperatorState)
    (sigs : List Signal) (b : Bool) (s : Int) (h : op.event_ = some sigs) :
    (Run op (RunResult.ok b) s).1 = Except.ok b ∧
    (emittedSignals op (Run op (RunResult.ok b) s).2).length = 1 := by
  cases b <;>
    simp [Run, setFinished, RecordEvent, contextRecord, emittedSignals, h]

/-- Claim C1, witness: the theorem applied to a concrete operator with a
fresh event. -/
theorem run_emits_exactly_one_terminal_signal_witness :
    (Run opWithEvent (RunResult.ok true) 0).1 = Except.ok true ∧
    (emittedSignals opWithEvent (Run opWithEvent (RunResult.ok true) 0).2).length = 1 :=
  run_emits_exactly_one_terminal_signal opWithEvent [] true 0 rfl

/-- Claim C1, counterexample: for an operator with no associated event, when
`RunOnDevice` returns false, `Run` returns normally but no terminal signal is
emitted at all (the state is completely unchanged), refuting the clause
"including when no event is associated with the operator". -/
theorem run_no_event_no_signal_counterexample :
    (Run opNoEvent (RunResult.ok false) 0).1 = Except.ok false ∧
    (Run opNoEvent (RunResult.ok false) 0).2 = opNoEvent ∧
    ¬ (emittedSignals opNoEvent (Run opNoEvent (RunResult.ok false) 0).2).length = 1 := by
  refine ⟨rfl, rfl, ?_⟩
  decide

/-- Claim C2: if `RunOnDevice` returns true then `Run` returns true, the
associated event is signaled finished, and no failed signal is emitted during
the invocation. -/
theorem run_true_event_finished (op : MKLOperatorState) (sigs : List Signal)
    (s : Int) (h : op.event_ = some sigs) :
    (Run op (RunResult.ok true) s).1 = Except.ok true ∧
    (Run op (RunResult.ok true) s).2.event_ = some (sigs ++ [Signal.finished]) ∧
    ∀ m, Signal.failed m ∉ emittedSignals op (Run op (RunResult.ok true) s).2 := by
  simp [Run, setFinished, emittedSignals, h]

/-- Claim C2, witness: the theorem applied to a concrete operator. -/
theorem run_true_event_finished_witness :
    (Run opWithEvent (RunResult.ok true) 0).1 = Except.ok true ∧
    (Run opWithEvent (RunResult.ok true) 0).2.event_ =
      some ([] ++ [Signal.finished]) ∧
    ∀ m, Signal.failed m ∉
      emittedSignals opWithEvent (Run opWithEvent (RunResult.ok true) 0).2 :=
  run_true_event_finished opWithEvent [] 0 rfl

/-- Claim C3: if `RunOnDevice` returns false then `Run` returns false without
raising, the associated event is signaled failed, and the failure message is
non-empty and is either the header plus the debug definition text or the
fallback string. -/
theorem run_false_event_failed (op : MKLOperatorState) (sigs : List Signal)
    (s : Int) (h : op.event_ = some sigs) :
    (Run op (RunResult.ok false) s).1 = Except.ok false ∧
    (Run op (RunResult.ok false) s).2.event_ =
      some (sigs ++ [Signal.failed (getErrorMsg op)]) ∧
    getErrorMsg op ≠ "" ∧
    (getErrorMsg op = "Error from operator: " ++ ProtoDebugString op.debug_def ∨
     getErrorMsg op = "Error from operator: no op def") := by
  refine ⟨?_, ?_, getErrorMsg_ne_empty op, ?_⟩
  · simp [Run]
  · simp [Run, RecordEvent, contextRecord, h]
  · unfold getErrorMsg
    split
    · exact Or.inl rfl
    · exact Or.inr rfl

/-- Claim C3, witness: the theorem applied to a concrete operator. -/
theorem run_false_event_failed_witness :
    (Run opWithEvent (RunResult.ok false) 0).1 = Except.ok false ∧
    (Run opWithEvent (RunResult.ok false) 0).2.event_ =
      some ([] ++ [Signal.failed (getErrorMsg opWithEvent)]) ∧
    getErrorMsg opWithEvent ≠ "" ∧
    (getErrorMsg opWithEvent =
       "Error from operator: " ++ ProtoDebugString opWithEvent.debug_def ∨
     getErrorMsg opWithEvent = "Error from operator: no op def") :=
  run_false_event_failed opWithEvent [] 0 rfl

/-- Claim C4: if `RunOnDevice` raises a consistency violation, `Run` does not
return normally; the propagated violation message is the original message
with the diagnostic context appended (original preserved as a prefix), and
the event is signaled failed with that combined message. -/
theorem run_violation_propagates (op : MKLOperatorState) (sigs : List Signal)
    (m : String) (s : Int) (h : op.event_ = some sigs) :
    (Run op (RunResult.enforceNotMet m) s).1 =
      Except.error (m ++ getErrorMsg op) ∧
    (∀ b, (Run op (RunResult.enforceNotMet m) s).1 ≠ Except.ok b) ∧
    (Run op (RunResult.enforceNotMet m) s).2.event_ =
      some (sigs ++ [Signal.failed (m ++ getErrorMsg op)]) := by
  refine ⟨?_, ?_, ?_⟩
  · simp [Run, appendMessage]
  · intro b
    simp [Run, appendMessage]
  · simp [Run, RecordEvent, contextRecord, appendMessage, h]

/-- Claim C4, witness: the theorem applied to a concrete operator and a
concrete violation message. -/
theorem run_violation_propagates_witness :
    (Run opWithEvent (RunResult.enforceNotMet "bad shape") 0).1 =
      Except.error ("bad shape" ++ getErrorMsg opWithEvent) ∧
    (∀ b, (Run opWithEvent (RunResult.enforceNotMet "bad shape") 0).1 ≠ Except.ok b) ∧
    (Run opWithEvent (RunResult.enforceNotMet "bad shape") 0).2.event_ =
      some ([] ++ [Signal.failed ("bad shape" ++ getErrorMsg opWithEvent)]) :=
  run_violation_propagates opWithEvent [] "bad shape" 0 rfl

/-- Claim C5: with a debug definition the failed-event message is the fixed
header concatenated with the debug definition text; without one it is
exactly the fallback string. -/
theorem run_false_failed_message (op : MKLOperatorState) (sigs : List Signal)
    (s : Int) (h : op.event_ = some sigs) :
    (op.has_debug_def = true →
      (Run op (RunResult.ok false) s).2.event_ =
        some (sigs ++ [Signal.failed
          ("Error from operator: " ++ ProtoDebugString op.debug_def)])) ∧
    (op.has_debug_def = false →
      (Run op (RunResult.ok false) s).2.event_ =
        some (sigs ++ [Signal.failed "Error from operator: no op def"])) := by
  constructor <;> intro hd <;>
    simp [Run, RecordEvent, contextRecord, getErrorMsg, hd, h]

/-- Claim C5, witness: the theorem applied to a concrete operator that has a
debug definition, with the hypothesis on the debug flag discharged. -/
theorem run_false_failed_message_witness :
    (Run opWithEvent (RunResult.ok false) 0).2.event_ =
      some ([] ++ [Signal.failed
        ("Error from operator: " ++ ProtoDebugString opWithEvent.debug_def)]) :=
  (run_false_failed_message opWithEvent [] 0 rfl).1 rfl

/-- Claim C6: `ExecutePrimitive` raises a fatal error exactly when the kernel
status is a failure (non-zero); on a success status it returns normally with
the state (hence all event state) unchanged. -/
theorem executePrimitive_raises_iff_failure (op : MKLOperatorState)
    (status : Int) :
    ((∃ m, ExecutePrimitive op status = Except.error m) ↔ status ≠ 0) ∧
    (status = 0 → ExecutePrimitive op status = Except.ok op) := by
  constructor
  · constructor
    · rintro ⟨m, hm⟩ h0
      simp [ExecutePrimitive, MKLDNN_SAFE_CALL, h0] at hm
    · intro h0
      refine ⟨"MKLDNN error, status " ++ toString status, ?_⟩
      simp [ExecutePrimitive, MKLDNN_SAFE_CALL, h0]
  · intro h0
    simp [ExecutePrimitive, MKLDNN_SAFE_CALL, h0]

/-- Claim C6, witness: the theorem applied at a concrete failure status. -/
theorem executePrimitive_raises_iff_failure_witness :
    ((∃ m, ExecutePrimitive opNoEvent 1 = Except.error m) ↔ (1 : Int) ≠ 0) ∧
    ((1 : Int) = 0 → ExecutePrimitive opNoEvent 1 = Except.ok opNoEvent) :=
  executePrimitive_raises_iff_failure opNoEvent 1

/-- Claim C7: over a sequence of N events, `WaitEvents` makes exactly N
context wait calls, the i-th with the i-th event, in input order, with no
short-circuiting. -/
theorem waitEvents_in_order (op : MKLOperatorState) (events : List Nat)
    (s : Int) :
    (WaitEvents op events s).ctxCalls =
      op.ctxCalls ++ events.map ContextCall.wait ∧
    (events.map ContextCall.wait).length = events.length := by
  exact ⟨WaitEvents_ctxCalls op events s, by simp⟩

/-- Claim C8: `RecordEvent` on an operator with no associated event leaves
the whole operator state unchanged (and, being a total function, does not
raise). -/
theorem recordEvent_no_event_noop (op : MKLOperatorState)
    (msg : Option String) (h : op.event_ = none) :
    RecordEvent op msg = op := by
  simp [RecordEvent, h]

/-- Claim C8, witness: the theorem applied with and without a message. -/
theorem recordEvent_no_event_noop_witness :
    RecordEvent opNoEvent (some "boom") = opNoEvent ∧
    RecordEvent opNoEvent none = opNoEvent :=
  ⟨recordEvent_no_event_noop opNoEvent (some "boom") rfl,
   recordEvent_no_event_noop opNoEvent none rfl⟩

/-- Claim C9: the stream id has no influence on `Run`: the return value, the
raised-or-not outcome and the whole resulting state (hence the event
signaling) coincide for any two stream ids. -/
theorem run_streamId_irrelevant (op : MKLOperatorState) (rod : RunResult)
    (s1 s2 : Int) : Run op rod s1 = Run op rod s2 := by
  cases rod with
  | ok b => cases b <;> rfl
  | enforceNotMet m => rfl

/-- Claim C10: `WaitEvent`, `WaitEvents` and `RecordEvent` leave the
operator-owned fields (primitive handle, input shape cache, scratch buffer,
resource bindings) unchanged; their only effects are context wait and record
calls, and the event update performed through the context record
primitive. -/
theorem wait_record_frame (op : MKLOperatorState) (ev : Nat)
    (events : List Nat) (msg : Option String) (s : Int) :
    ((WaitEvent op ev s).primitive_ = op.primitive_ ∧
     (WaitEvent op ev s).input_size_cache_ = op.input_size_cache_ ∧
     (WaitEvent op ev s).buffer_ = op.buffer_ ∧
     (WaitEvent op ev s).resources_ = op.resources_ ∧
     (WaitEvent op ev s).event_ = op.event_ ∧
     (WaitEvent op ev s).ctxCalls = op.ctxCalls ++ [ContextCall.wait ev]) ∧
    ((WaitEvents op events s).primitive_ = op.primitive_ ∧
     (WaitEvents op events s).input_size_cache_ = op.input_size_cache_ ∧
     (WaitEvents op events s).buffer_ = op.buffer_ ∧
     (WaitEvents op events s).resources_ = op.resources_ ∧
     (WaitEvents op events s).event_ = op.event_ ∧
     (WaitEvents op events s).ctxCalls =
       op.ctxCalls ++ events.map ContextCall.wait) ∧
    ((RecordEvent op msg).primitive_ = op.primitive_ ∧
     (RecordEvent op msg).input_size_cache_ = op.input_size_cache_ ∧
     (RecordEvent op msg).buffer_ = op.buffer_ ∧
     (RecordEvent op msg).resources_ = op.resources_ ∧
     (op.event_ = none → RecordEvent op msg = op) ∧
     (∀ sigs, op.event_ = some sigs →
        RecordEvent op msg =
          { op with
            event_ := some (contextRecord sigs msg)
            ctxCalls := op.ctxCalls ++ [ContextCall.record msg] })) := by
  obtain ⟨f1, f2, f3, f4, f5, f6, f7⟩ := WaitEvents_fields op events s
  refine ⟨⟨rfl, rfl, rfl, rfl, rfl, rfl⟩,
          ⟨f4, f5, f6, f7, f3, WaitEvents_ctxCalls op events s⟩,
          ?_, ?_, ?_, ?_, ?_, ?_⟩
  · cases h : op.event_ <;> simp [RecordEvent, h]
  · cases h : op.event_ <;> simp [RecordEvent, h]
  · cases h : op.event_ <;> simp [RecordEvent, h]
  · cases h : op.event_ <;> simp [RecordEvent, h]
  · intro h
    simp [RecordEvent, h]
  · intro sigs h
    simp [RecordEvent, h]

/-- Claim C10, witness: the theorem applied at a concrete operator with an
event, discharging the event hypotheses. -/
theorem wait_record_frame_witness :
    (RecordEvent opWithEvent (some "oops")).primitive_ = opWithEvent.primitive_ ∧
    RecordEvent opWithEvent (some "oops") =
      { opWithEvent with
        event_ := some (contextRecord [] (some "oops"))
        ctxCalls := opWithEvent.ctxCalls ++ [ContextCall.record (some "oops")] } :=
  ⟨(wait_record_frame opWithEvent 0 [] (some "oops") 0).2.2.1,
   (wait_record_frame opWithEvent 0 [] (some "oops") 0).2.2.2.2.2.2.2 [] rfl⟩

end Caffe2MKL
